import Mathlib

/-!
Verification development for the ethereal-entity repository.

Part 1 embeds the state-transition engine of `useEntityState` (App.tsx /
hooks/useEntityState.ts): entity states, the transition record, the duration
table, the cubic easing function, `transitionTo`, the per-tick `animate`
body, and `getInterpolatedValue`.  JavaScript numbers are modelled by ℚ,
since this part of the code performs only field operations on them.

Part 2 (below) embeds the particle-system geometry (OphanimEntity.tsx ring
rotation, NebulaEntity.tsx cloud update) over ℝ, since that code uses
trigonometric functions and square roots.
-/

/-- The `EntityState` union type: `'resting' | 'thinking' | 'acting'`. -/
inductive EntityState where
  | resting
  | thinking
  | acting
deriving DecidableEq, Repr

/-- The `TransitionState` interface.  The `from` field is renamed
`fromState` (`from` is a Lean keyword) and `to` is renamed `toState` for
symmetry.  `progress` holds the value the hook stores there: `0` at the
start of a transition, the eased progress while animating, `1` on
completion. -/
structure TransitionState where
  fromState : EntityState
  toState : EntityState
  progress : ℚ
  isTransitioning : Bool
deriving DecidableEq, Repr

/-- State name as used in the `TRANSITION_DURATIONS` record keys. -/
def EntityState.toKey : EntityState → String
  | .resting => "resting"
  | .thinking => "thinking"
  | .acting => "acting"

/-- The `TRANSITION_DURATIONS` record (`Record<string, number>`), keyed by
the template string `from-to`. -/
def TRANSITION_DURATIONS : List (String × ℚ) :=
  [("resting-thinking", 1500),
   ("thinking-acting", 600),
   ("acting-resting", 2000),
   ("thinking-resting", 1200),
   ("resting-acting", 800),
   ("acting-thinking", 1000)]

/-- `getTransitionDuration(from, to)`: looks up the key `from-to` in the
record and falls back to `1000` when the key is absent (the source writes
`TRANSITION_DURATIONS[key] || 1000`; no stored value is `0`, so the JS
falsy-or coincides with an absence default). -/
def getTransitionDuration (fromState toState : EntityState) : ℚ :=
  match TRANSITION_DURATIONS.lookup (fromState.toKey ++ "-" ++ toState.toKey) with
  | some d => d
  | none => 1000

/-- `easeInOutCubic(t)`: `t < 0.5 ? 4 * t * t * t : 1 - Math.pow(-2 * t + 2, 3) / 2`. -/
def easeInOutCubic (t : ℚ) : ℚ :=
  if t < 0.5 then 4 * t * t * t else 1 - (-2 * t + 2) ^ 3 / 2

/-- The engine state owned by `useEntityState`: the `currentState` React
state, the `transition` React state, and `transitionRef.current`
(modelled as `Option (startTime × duration)`, `none` when the ref is
`null`). -/
structure EngineState where
  currentState : EntityState
  transition : TransitionState
  transitionRef : Option (ℚ × ℚ)
deriving DecidableEq, Repr

/-- The hook's initial state: `currentState = 'resting'`,
`transition = { from: 'resting', to: 'resting', progress: 1,
isTransitioning: false }`, `transitionRef.current = null`. -/
def initialEngine : EngineState :=
  { currentState := .resting,
    transition :=
      { fromState := .resting, toState := .resting, progress := 1, isTransitioning := false },
    transitionRef := none }

/-- `transitionTo(newState)` invoked at time `now` (`performance.now()`):
returns unchanged when `newState === currentState || transition.isTransitioning`,
otherwise records `{ startTime: now, duration }` in the ref and sets the
transition to `{ from: currentState, to: newState, progress: 0,
isTransitioning: true }`. -/
def transitionTo (es : EngineState) (now : ℚ) (newState : EntityState) : EngineState :=
  if newState = es.currentState ∨ es.transition.isTransitioning = true then es
  else
    { currentState := es.currentState,
      transition :=
        { fromState := es.currentState, toState := newState,
          progress := 0, isTransitioning := true },
      transitionRef := some (now, getTransitionDuration es.currentState newState) }

/-- `Math.min(elapsed / duration, 1)` — the raw progress computed by each
`animate` frame from the ref's `startTime`/`duration` and the frame time. -/
def rawProgressOf (startTime duration now : ℚ) : ℚ :=
  min ((now - startTime) / duration) 1

/-- One execution of the `animate` callback body at frame time `now`.
When the ref is `null` it returns immediately; otherwise it computes the
raw and eased progress and either commits the transition (`rawProgress >= 1`:
current state becomes `transition.to`, progress pinned to `1`,
`isTransitioning` cleared, ref cleared) or stores the eased progress. -/
def animate (es : EngineState) (now : ℚ) : EngineState :=
  match es.transitionRef with
  | none => es
  | some (startTime, duration) =>
    let rawProgress := rawProgressOf startTime duration now
    let easedProgress := easeInOutCubic rawProgress
    if 1 ≤ rawProgress then
      { currentState := es.transition.toState,
        transition := { es.transition with progress := 1, isTransitioning := false },
        transitionRef := none }
    else
      { es with transition := { es.transition with progress := easedProgress } }

/-- The `stateValues` object literal built by `getInterpolatedValue`:
`{ resting: restingValue, thinking: thinkingValue, acting: actingValue }`,
indexed by a state. -/
def stateValuesLookup (restingValue thinkingValue actingValue : ℚ) : EntityState → ℚ
  | .resting => restingValue
  | .thinking => thinkingValue
  | .acting => actingValue

/-- `getInterpolatedValue(restingValue, thinkingValue, actingValue,
currentState, transition)`: direct lookup when `!transition.isTransitioning`,
otherwise `fromValue + (toValue - fromValue) * transition.progress`. -/
def getInterpolatedValue (restingValue thinkingValue actingValue : ℚ)
    (currentState : EntityState) (transition : TransitionState) : ℚ :=
  let stateValues := stateValuesLookup restingValue thinkingValue actingValue
  if transition.isTransitioning = false then stateValues currentState
  else
    let fromValue := stateValues transition.fromState
    let toValue := stateValues transition.toState
    fromValue + (toValue - fromValue) * transition.progress

/-!
## Part 2: particle-system geometry

The ring system (OphanimEntity.tsx) and the cloud system (NebulaEntity.tsx)
are embedded over ℝ.  `Vec3`, `Quat` and the quaternion/matrix operations
mirror the three.js classes the source calls (`THREE.Vector3.normalize`,
`THREE.Quaternion.setFromAxisAngle`, `THREE.Quaternion.setFromUnitVectors`,
`THREE.Vector3.applyQuaternion`, `THREE.Matrix4.makeRotationFromQuaternion`,
`THREE.Vector3.applyMatrix4` restricted to its rotation block).
`Math.atan2(y, x)` is modelled as the argument of the complex number
`x + iy`, which matches it on its whole domain.  The per-tick random jitter
draws `Math.random() - 0.5` of the cloud update are passed in as an explicit
vector of values in `[-1/2, 1/2]`.
-/

structure Vec3 where
  x : ℝ
  y : ℝ
  z : ℝ

/-- `Math.atan2 y x`, via the complex argument of `x + iy`. -/
noncomputable def atan2 (y x : ℝ) : ℝ := Complex.arg ⟨x, y⟩

/-- `vFrom.dot(vTo)`. -/
def dot (a b : Vec3) : ℝ := a.x * b.x + a.y * b.y + a.z * b.z

/-- `a.cross(b)` (`THREE.Vector3.crossVectors`). -/
def cross (a b : Vec3) : Vec3 :=
  ⟨a.y * b.z - a.z * b.y, a.z * b.x - a.x * b.z, a.x * b.y - a.y * b.x⟩

/-- `THREE.Vector3.normalize`: divide by the length, or by `1` when the
length is `0` (`divideScalar(this.length() || 1)`). -/
noncomputable def vecNormalize (v : Vec3) : Vec3 :=
  let l := Real.sqrt (v.x * v.x + v.y * v.y + v.z * v.z)
  let d := if l = 0 then 1 else l
  ⟨v.x / d, v.y / d, v.z / d⟩

/-- `Math.sqrt(x*x + y*y + z*z)`: a particle's distance from the system
origin. -/
noncomputable def distFromOrigin (p : Vec3) : ℝ :=
  Real.sqrt (p.x * p.x + p.y * p.y + p.z * p.z)

/-- `Math.sqrt(x*x + z*z)`: the horizontal-plane radius used by the cloud
flow field. -/
noncomputable def horizontalDist (p : Vec3) : ℝ := Real.sqrt (p.x * p.x + p.z * p.z)

/-- The cloud shell bound `maxDist = layer === 0 ? 0.8 : layer === 1 ? 1.5 : 2.5`
(layer 0 = Core, 1 = Mid, 2 = Edge; the layer attribute is stored as a
float). -/
noncomputable def shellMaxRadius (layer : ℝ) : ℝ :=
  if layer = 0 then 0.8 else if layer = 1 then 1.5 else 2.5

/-- Cloud update, flow-field block: when the horizontal radius exceeds
`0.01`, advance the angle by `flowSpeed * (0.5 + layer * 0.3) * delta` and
move to radius `max(0.1, dist - spiralPull * 0.1)` with
`spiralPull = spiralStrength * delta * (layer + 1)`; otherwise leave the
position unchanged. -/
noncomputable def cloudFlowStep (flowSpeed spiralStrength delta layer : ℝ) (p : Vec3) : Vec3 :=
  let dist := Real.sqrt (p.x * p.x + p.z * p.z)
  if dist > 0.01 then
    let angle := atan2 p.z p.x
    let rotSpeed := flowSpeed * (0.5 + layer * 0.3) * delta
    let newAngle := angle + rotSpeed
    let spiralPull := spiralStrength * delta * (layer + 1)
    let newDist := max 0.1 (dist - spiralPull * 0.1)
    ⟨Real.cos newAngle * newDist, p.y, Real.sin newAngle * newDist⟩
  else p

/-- Cloud update, vertical-oscillation line:
`y += Math.sin(time * 2 + i * 0.1) * 0.002 * flowSpeed`. -/
noncomputable def cloudOscStep (flowSpeed time : ℝ) (i : ℕ) (p : Vec3) : Vec3 :=
  ⟨p.x, p.y + Real.sin (time * 2 + (i : ℝ) * 0.1) * 0.002 * flowSpeed, p.z⟩

/-- Cloud update, centering-attraction block: step along
`normalize(-x, -y, -z)` by `pullStrength * delta` with
`pullStrength = 0.01 * flowSpeed`. -/
noncomputable def cloudCenterStep (flowSpeed delta : ℝ) (p : Vec3) : Vec3 :=
  let toCenter := vecNormalize ⟨-p.x, -p.y, -p.z⟩
  let pullStrength := 0.01 * flowSpeed
  ⟨p.x + toCenter.x * pullStrength * delta,
   p.y + toCenter.y * pullStrength * delta,
   p.z + toCenter.z * pullStrength * delta⟩

/-- Cloud update, chaos block: `x += (Math.random() - 0.5) * chaosAmount`
per axis; `j` carries the three independent `Math.random() - 0.5` draws of
this tick. -/
noncomputable def cloudJitterStep (chaosAmount : ℝ) (j : Vec3) (p : Vec3) : Vec3 :=
  ⟨p.x + j.x * chaosAmount, p.y + j.y * chaosAmount, p.z + j.z * chaosAmount⟩

/-- Cloud update, soft-boundary block: when the distance from the origin
exceeds `maxDist * contraction`, scale the position by
`(maxDist * contraction / currentDist) * 0.95`. -/
noncomputable def cloudContainStep (contraction layer : ℝ) (p : Vec3) : Vec3 :=
  let currentDist := Real.sqrt (p.x * p.x + p.y * p.y + p.z * p.z)
  let maxDist := shellMaxRadius layer
  if currentDist > maxDist * contraction then
    let scale := maxDist * contraction / currentDist
    ⟨p.x * (scale * 0.95), p.y * (scale * 0.95), p.z * (scale * 0.95)⟩
  else p

/-- One full cloud-system position update for particle `i` of shell `layer`
at position `p`: the flow/spiral block, then vertical oscillation, then
centering attraction, then random jitter, then the containment clamp, in
the source's order (the clamped position is what is persisted via
`posAttr.setXYZ`).  `flowSpeed`, `contraction`, `spiralStrength` and
`chaosAmount` are the tick's interpolated parameters. -/
noncomputable def cloudUpdate (flowSpeed contraction spiralStrength chaosAmount time delta : ℝ)
    (i : ℕ) (layer : ℝ) (j : Vec3) (p : Vec3) : Vec3 :=
  cloudContainStep contraction layer
    (cloudJitterStep chaosAmount j
      (cloudCenterStep flowSpeed delta
        (cloudOscStep flowSpeed time i
          (cloudFlowStep flowSpeed spiralStrength delta layer p))))

structure Quat where
  x : ℝ
  y : ℝ
  z : ℝ
  w : ℝ

/-- `THREE.Quaternion.setFromAxisAngle(axis, angle)` (axis assumed
normalized by three.js). -/
noncomputable def setFromAxisAngle (axis : Vec3) (angle : ℝ) : Quat :=
  let halfAngle := angle / 2
  let s := Real.sin halfAngle
  ⟨axis.x * s, axis.y * s, axis.z * s, Real.cos halfAngle⟩

/-- `THREE.Quaternion.normalize`: divide by the length, or return the
identity quaternion when the length is `0`. -/
noncomputable def quatNormalize (q : Quat) : Quat :=
  let l := Real.sqrt (q.x * q.x + q.y * q.y + q.z * q.z + q.w * q.w)
  if l = 0 then ⟨0, 0, 0, 1⟩ else ⟨q.x / l, q.y / l, q.z / l, q.w / l⟩

/-- `Number.EPSILON`. -/
noncomputable def numberEpsilon : ℝ := 2 ^ (-52 : ℤ)

/-- `THREE.Quaternion.setFromUnitVectors(vFrom, vTo)`: the normalized
quaternion `(vFrom × vTo, vFrom·vTo + 1)`, with the antipodal fallback when
`vFrom·vTo + 1 < Number.EPSILON`. -/
noncomputable def setFromUnitVectors (vFrom vTo : Vec3) : Quat :=
  let r := dot vFrom vTo + 1
  let q : Quat :=
    if r < numberEpsilon then
      if |vFrom.x| > |vFrom.z| then ⟨-vFrom.y, vFrom.x, 0, 0⟩
      else ⟨0, -vFrom.z, vFrom.y, 0⟩
    else
      let c := cross vFrom vTo
      ⟨c.x, c.y, c.z, r⟩
  quatNormalize q

/-- `THREE.Vector3.applyQuaternion(q)`:
`t = 2 q⃗ × v; v + q.w t + q⃗ × t`. -/
noncomputable def applyQuaternion (v : Vec3) (q : Quat) : Vec3 :=
  let tx := 2 * (q.y * v.z - q.z * v.y)
  let ty := 2 * (q.z * v.x - q.x * v.z)
  let tz := 2 * (q.x * v.y - q.y * v.x)
  ⟨v.x + q.w * tx + q.y * tz - q.z * ty,
   v.y + q.w * ty + q.z * tx - q.x * tz,
   v.z + q.w * tz + q.x * ty - q.y * tx⟩

/-- The rotation block of a `THREE.Matrix4`. -/
structure Mat3 where
  m11 : ℝ
  m12 : ℝ
  m13 : ℝ
  m21 : ℝ
  m22 : ℝ
  m23 : ℝ
  m31 : ℝ
  m32 : ℝ
  m33 : ℝ

/-- `THREE.Matrix4.makeRotationFromQuaternion(q)` (the rotation block of
`Matrix4.compose` with zero translation and unit scale). -/
noncomputable def makeRotationFromQuaternion (q : Quat) : Mat3 :=
  let x2 := q.x + q.x
  let y2 := q.y + q.y
  let z2 := q.z + q.z
  let xx := q.x * x2
  let xy := q.x * y2
  let xz := q.x * z2
  let yy := q.y * y2
  let yz := q.y * z2
  let zz := q.z * z2
  let wx := q.w * x2
  let wy := q.w * y2
  let wz := q.w * z2
  { m11 := 1 - (yy + zz), m12 := xy - wz, m13 := xz + wy,
    m21 := xy + wz, m22 := 1 - (xx + zz), m23 := yz - wx,
    m31 := xz - wy, m32 := yz + wx, m33 := 1 - (xx + yy) }

/-- `THREE.Vector3.applyMatrix4` for a rotation matrix (no translation,
homogeneous coordinate 1). -/
noncomputable def applyMatrix4 (m : Mat3) (v : Vec3) : Vec3 :=
  ⟨m.m11 * v.x + m.m12 * v.y + m.m13 * v.z,
   m.m21 * v.x + m.m22 * v.y + m.m23 * v.z,
   m.m31 * v.x + m.m32 * v.y + m.m33 * v.z⟩

def PARTICLES_PER_RING : ℕ := 180

/-- Construction-time base position of ring particle `i`
(OphanimEntity.tsx `ParticleRing` useMemo): the point at angle
`(i / PARTICLES_PER_RING) * 2π` on the circle of the configured radius in
the xz-plane, mapped by the rotation aligning the up vector `(0,1,0)` with
the configured axis. -/
noncomputable def ringBasePosition (axis : Vec3) (radius : ℝ) (i : ℕ) : Vec3 :=
  let up : Vec3 := ⟨0, 1, 0⟩
  let quaternion := setFromUnitVectors up axis
  let matrix := makeRotationFromQuaternion quaternion
  let angle := ((i : ℝ) / (PARTICLES_PER_RING : ℝ)) * Real.pi * 2
  let pos : Vec3 := ⟨Real.cos angle * radius, 0, Real.sin angle * radius⟩
  applyMatrix4 matrix pos

/-- Per-tick rotation of one stored ring-particle position: apply the
incremental quaternion `setFromAxisAngle(config.axis,
delta * config.speed * speedMultiplier)`. -/
noncomputable def ringTickRotate (axis : Vec3) (delta speed speedMultiplier : ℝ)
    (p : Vec3) : Vec3 :=
  applyQuaternion p (setFromAxisAngle axis (delta * speed * speedMultiplier))

/-- The ring system's per-tick loop: every stored particle position is
rotated by the same incremental quaternion. -/
noncomputable def ringUpdate (axis : Vec3) (delta speed speedMultiplier : ℝ)
    (ps : List Vec3) : List Vec3 :=
  ps.map (ringTickRotate axis delta speed speedMultiplier)

/-- Distance of `p` from the line through the origin with unit direction
`axis`. -/
noncomputable def distFromAxis (axis p : Vec3) : ℝ :=
  Real.sqrt (dot p p - (dot axis p) ^ 2)


/-!
## Theorems about the transition engine
-/

theorem durationAlwaysPos : ∀ f t : EntityState, 0 < getTransitionDuration f t := by
  intro f t; cases f <;> cases t <;> decide

theorem engineAfterRequest : ∀ (f t : EntityState), f ≠ t → ∀ (es : EngineState) (t₀ : ℚ),
    es.currentState = f → es.transition.isTransitioning = false →
    transitionTo es t₀ t =
      { currentState := f,
        transition := { fromState := f, toState := t, progress := 0, isTransitioning := true },
        transitionRef := some (t₀, getTransitionDuration f t) } := by
  intro f t hft es t₀ hcur htr
  have hguard : ¬(t = es.currentState ∨ es.transition.isTransitioning = true) := by
    rw [hcur, htr]; simp [Ne.symm hft]
  rw [transitionTo, if_neg hguard, hcur]

theorem engineScenarioStart : transitionTo initialEngine 0 .thinking =
    { currentState := .resting,
      transition := { fromState := .resting, toState := .thinking,
                      progress := 0, isTransitioning := true },
      transitionRef := some (0, 1500) } := by
  simp [transitionTo, initialEngine,
    show getTransitionDuration EntityState.resting EntityState.thinking = 1500 from by decide]

theorem engineScenario750 : animate (transitionTo initialEngine 0 .thinking) 750 =
    { currentState := .resting,
      transition := { fromState := .resting, toState := .thinking,
                      progress := 0.5, isTransitioning := true },
      transitionRef := some (0, 1500) } := by
  rw [engineScenarioStart]
  have hr : rawProgressOf 0 1500 750 = 0.5 := by
    rw [rawProgressOf, min_eq_left (by norm_num)]; norm_num
  norm_num [animate, hr, easeInOutCubic]

theorem engineScenario1500 : animate (transitionTo initialEngine 0 .thinking) 1500 =
    { currentState := .thinking,
      transition := { fromState := .resting, toState := .thinking,
                      progress := 1, isTransitioning := false },
      transitionRef := none } := by
  rw [engineScenarioStart]
  have hr : rawProgressOf 0 1500 1500 = 1 := by rw [rawProgressOf]; norm_num
  norm_num [animate, hr]

/-- C1: for every ordered pair of distinct states `(f, t)`, with the engine
idle at `f`, `transitionTo t` creates an active transition with progress `0`
and `isTransitioning = true`; while the elapsed time stays below
`getTransitionDuration f t` the per-tick `animate` keeps the current state
at `f` with the transition active, and once the elapsed time reaches or
exceeds that duration `animate` sets `currentState = t`,
`isTransitioning = false` and pins the progress to `1`.  In particular,
starting from the idle-resting initial engine, `transitionTo thinking` uses
the 1500 ms duration; after 750 ms the raw progress is `0.5` and the current
state is still `resting`, and at 1500 ms the current state is `thinking`
with `isTransitioning = false`. -/
theorem transitionEngineRun : ∀ (f t : EntityState), f ≠ t → ∀ (es : EngineState) (t₀ : ℚ),
    es.currentState = f → es.transition.isTransitioning = false →
    ((transitionTo es t₀ t).transition.progress = 0 ∧
     (transitionTo es t₀ t).transition.isTransitioning = true ∧
     (transitionTo es t₀ t).currentState = f ∧
     (transitionTo es t₀ t).transition.fromState = f ∧
     (transitionTo es t₀ t).transition.toState = t ∧
     (transitionTo es t₀ t).transitionRef = some (t₀, getTransitionDuration f t)) ∧
    (∀ now : ℚ, now - t₀ < getTransitionDuration f t →
      (animate (transitionTo es t₀ t) now).currentState = f ∧
      (animate (transitionTo es t₀ t) now).transition.isTransitioning = true) ∧
    (∀ now : ℚ, getTransitionDuration f t ≤ now - t₀ →
      (animate (transitionTo es t₀ t) now).currentState = t ∧
      (animate (transitionTo es t₀ t) now).transition.isTransitioning = false ∧
      (animate (transitionTo es t₀ t) now).transition.progress = 1) ∧
    (getTransitionDuration .resting .thinking = 1500 ∧
     rawProgressOf 0 1500 750 = 0.5 ∧
     (animate (transitionTo initialEngine 0 .thinking) 750).currentState = .resting ∧
     (animate (transitionTo initialEngine 0 .thinking) 750).transition.isTransitioning = true ∧
     (animate (transitionTo initialEngine 0 .thinking) 1500).currentState = .thinking ∧
     (animate (transitionTo initialEngine 0 .thinking) 1500).transition.isTransitioning = false ∧
     (animate (transitionTo initialEngine 0 .thinking) 1500).transition.progress = 1) := by
  intro f t hft es t₀ hcur htr
  have hdur : 0 < getTransitionDuration f t := durationAlwaysPos f t
  have hes1 := engineAfterRequest f t hft es t₀ hcur htr
  refine ⟨by simp [hes1], ?_, ?_, ?_⟩
  · intro now hlt
    have hraw : rawProgressOf t₀ (getTransitionDuration f t) now < 1 := by
      rw [rawProgressOf]
      have hq : (now - t₀) / getTransitionDuration f t < 1 := by
        rw [div_lt_one hdur]; exact hlt
      exact lt_of_le_of_lt (min_le_left _ _) (by simpa using hq)
    rw [hes1, animate]
    simp only [if_neg (not_le.mpr hraw)]
    exact ⟨trivial, trivial⟩
  · intro now hge
    have hraw : rawProgressOf t₀ (getTransitionDuration f t) now = 1 := by
      rw [rawProgressOf, min_eq_right]
      rw [le_div_iff₀ hdur]; simpa using hge
    rw [hes1, animate]
    simp only [hraw, le_refl, if_pos]
    exact ⟨trivial, trivial, trivial⟩
  · refine ⟨by decide, by rw [rawProgressOf, min_eq_left (by norm_num)]; norm_num, ?_⟩
    rw [engineScenario750, engineScenario1500]
    norm_num

/-- Witness for C1: instantiates the run theorem at the resting→thinking pair
on the initial engine and reads off the committed state at 1500 ms. -/
theorem transitionEngineRunWitness :
    EntityState.resting ≠ EntityState.thinking ∧
    (animate (transitionTo initialEngine 0 .thinking) 1500).currentState = .thinking := by
  refine ⟨by decide, ?_⟩
  have hge : getTransitionDuration EntityState.resting EntityState.thinking ≤ 1500 - 0 := by
    rw [show getTransitionDuration EntityState.resting EntityState.thinking = 1500 from by decide]
    norm_num
  exact ((transitionEngineRun .resting .thinking (by decide) initialEngine 0 rfl rfl).2.2.1
    1500 hge).1

/-- C3: `transitionTo` is a silent no-op both when the requested state equals
the current state and when a transition is already active: the entire engine
state (current state, transition record, ref bookkeeping) is returned
unchanged and no new record is created. -/
theorem transitionToNoOp :
    ∀ (es : EngineState) (now : ℚ) (s : EntityState),
      s = es.currentState ∨ es.transition.isTransitioning = true →
      transitionTo es now s = es := by
  intro es now s h
  rw [transitionTo, if_pos h]

/-- Witness for C3: a self-transition request on the initial engine and a
request made while a transition is active both leave the engine unchanged. -/
theorem transitionToNoOpWitness :
    transitionTo initialEngine 5 .resting = initialEngine ∧
    transitionTo (transitionTo initialEngine 0 .thinking) 10 .acting =
      transitionTo initialEngine 0 .thinking := by
  constructor
  · exact transitionToNoOp initialEngine 5 .resting (Or.inl rfl)
  · exact transitionToNoOp (transitionTo initialEngine 0 .thinking) 10 .acting
      (Or.inr (by rw [engineScenarioStart]))

/-- C9: `getTransitionDuration` is total (it is a Lean function, hence
defined and error-free on every pair): it returns the six configured
durations for the six listed distinct pairs, and the default `1000` for
every pair absent from the table — in particular for every `from == to`
pair. -/
theorem durationTableTotal :
    getTransitionDuration .resting .thinking = 1500 ∧
    getTransitionDuration .thinking .acting = 600 ∧
    getTransitionDuration .acting .resting = 2000 ∧
    getTransitionDuration .thinking .resting = 1200 ∧
    getTransitionDuration .resting .acting = 800 ∧
    getTransitionDuration .acting .thinking = 1000 ∧
    (∀ s : EntityState, getTransitionDuration s s = 1000) := by
  refine ⟨by decide, by decide, by decide, by decide, by decide, by decide, ?_⟩
  intro s; cases s <;> decide

/-- C2: `getInterpolatedValue` is a pure function of its arguments; with no
active transition it returns exactly the value associated with the current
state (in particular `thinkingValue` when idle in `thinking`, for all three
per-state values), and with an active transition of progress `p ∈ [0, 1]` it
returns `value(from) + (value(to) - value(from)) * p`. -/
theorem interpolatedValueSpec :
    (∀ r t a : ℚ, ∀ tr : TransitionState, tr.isTransitioning = false →
       getInterpolatedValue r t a .thinking tr = t) ∧
    (∀ r t a : ℚ, ∀ cs : EntityState, ∀ tr : TransitionState, tr.isTransitioning = false →
       getInterpolatedValue r t a cs tr = stateValuesLookup r t a cs) ∧
    (∀ r t a : ℚ, ∀ cs : EntityState, ∀ tr : TransitionState,
       tr.isTransitioning = true → 0 ≤ tr.progress → tr.progress ≤ 1 →
       getInterpolatedValue r t a cs tr =
         stateValuesLookup r t a tr.fromState +
           (stateValuesLookup r t a tr.toState - stateValuesLookup r t a tr.fromState) *
             tr.progress) := by
  refine ⟨?_, ?_, ?_⟩
  · intro r t a tr h
    simp [getInterpolatedValue, h, stateValuesLookup]
  · intro r t a cs tr h
    simp [getInterpolatedValue, h]
  · intro r t a cs tr h _ _
    simp [getInterpolatedValue, h]

/-- Witness for C2: concrete instances — idle in `thinking` returns the
thinking value `7`, and a resting→thinking transition at eased progress
`1/2` returns the midpoint `5` of `3` and `7`. -/
theorem interpolatedValueSpecWitness :
    (({ fromState := .resting, toState := .thinking, progress := 1,
        isTransitioning := false } : TransitionState).isTransitioning = false ∧
     getInterpolatedValue 3 7 11 .thinking
       { fromState := .resting, toState := .thinking, progress := 1,
         isTransitioning := false } = 7) ∧
    (getInterpolatedValue 3 7 11 .resting
       { fromState := .resting, toState := .thinking, progress := 1/2,
         isTransitioning := true } =
     stateValuesLookup 3 7 11 EntityState.resting +
       (stateValuesLookup 3 7 11 EntityState.thinking -
         stateValuesLookup 3 7 11 EntityState.resting) * (1/2)) := by
  constructor
  · exact ⟨rfl, interpolatedValueSpec.1 3 7 11 _ rfl⟩
  · exact interpolatedValueSpec.2.2 3 7 11 .resting
      { fromState := .resting, toState := .thinking, progress := 1/2, isTransitioning := true }
      rfl (by norm_num) (by norm_num)

/-- C10: while a transition is active, `getInterpolatedValue` is independent
of the `currentState` argument — any two current states yield the same
result — and the result depends only on the three per-state values and on
the transition's `from`, `to` and `progress` fields. -/
theorem interpolatedValueIgnoresCurrentState :
    (∀ (r t a : ℚ) (s1 s2 : EntityState) (tr : TransitionState),
       tr.isTransitioning = true →
       getInterpolatedValue r t a s1 tr = getInterpolatedValue r t a s2 tr) ∧
    (∀ (r t a : ℚ) (s1 s2 : EntityState) (tr1 tr2 : TransitionState),
       tr1.isTransitioning = true → tr2.isTransitioning = true →
       tr1.fromState = tr2.fromState → tr1.toState = tr2.toState →
       tr1.progress = tr2.progress →
       getInterpolatedValue r t a s1 tr1 = getInterpolatedValue r t a s2 tr2) := by
  constructor
  · intro r t a s1 s2 tr h
    simp [getInterpolatedValue, h]
  · intro r t a s1 s2 tr1 tr2 h1 h2 hf ht hp
    simp [getInterpolatedValue, h1, h2, hf, ht, hp]

/-- Witness for C10: with an active resting→thinking transition at progress
`1/2`, evaluating with current state `resting` and with current state
`acting` gives the same value. -/
theorem interpolatedValueIgnoresCurrentStateWitness :
    getInterpolatedValue 3 7 11 .resting
      { fromState := .resting, toState := .thinking, progress := 1/2,
        isTransitioning := true } =
    getInterpolatedValue 3 7 11 .acting
      { fromState := .resting, toState := .thinking, progress := 1/2,
        isTransitioning := true } :=
  interpolatedValueIgnoresCurrentState.1 3 7 11 .resting .acting
    { fromState := .resting, toState := .thinking, progress := 1/2, isTransitioning := true }
    rfl

/-- C4: `easeInOutCubic t` equals `4t³` for `t < 0.5` and `1 - (-2t+2)³/2`
otherwise; it fixes `0`, `1` and `0.5`, stays within `[0, 1]` on `[0, 1]`,
and is monotonically non-decreasing on `[0, 1]`. -/
theorem easeInOutCubicShape :
    easeInOutCubic 0 = 0 ∧ easeInOutCubic 1 = 1 ∧ easeInOutCubic 0.5 = 0.5 ∧
    (∀ t : ℚ, t < 0.5 → easeInOutCubic t = 4 * t * t * t) ∧
    (∀ t : ℚ, ¬ t < 0.5 → easeInOutCubic t = 1 - (-2 * t + 2) ^ 3 / 2) ∧
    (∀ t : ℚ, 0 ≤ t → t ≤ 1 → 0 ≤ easeInOutCubic t ∧ easeInOutCubic t ≤ 1) ∧
    (∀ t s : ℚ, 0 ≤ t → t ≤ s → s ≤ 1 → easeInOutCubic t ≤ easeInOutCubic s) := by
  refine ⟨by norm_num [easeInOutCubic], by norm_num [easeInOutCubic],
    by norm_num [easeInOutCubic], ?_, ?_, ?_, ?_⟩
  · intro t h
    rw [easeInOutCubic, if_pos h]
  · intro t h
    rw [easeInOutCubic, if_neg h]
  · intro t h0 h1
    rw [easeInOutCubic]
    split_ifs with h
    · constructor
      · positivity
      · nlinarith [mul_nonneg h0 h0]
    · push_neg at h
      constructor
      · nlinarith [mul_nonneg (by linarith : (0:ℚ) ≤ 2 - 2*t) (by linarith : (0:ℚ) ≤ 2 - 2*t)]
      · nlinarith [mul_nonneg (by linarith : (0:ℚ) ≤ 2 - 2*t) (by linarith : (0:ℚ) ≤ 2 - 2*t),
          mul_nonneg (mul_nonneg (by linarith : (0:ℚ) ≤ 2 - 2*t)
            (by linarith : (0:ℚ) ≤ 2 - 2*t)) (by linarith : (0:ℚ) ≤ 2 - 2*t)]
  · intro t s ht hts hs1
    rw [easeInOutCubic, easeInOutCubic]
    split_ifs with h1 h2 h2
    · nlinarith [mul_nonneg (sub_nonneg.mpr hts)
        (by nlinarith [sq_nonneg (s + t), sq_nonneg s, sq_nonneg t] :
          (0:ℚ) ≤ s*s + s*t + t*t)]
    · push_neg at h2
      have ha : (0:ℚ) ≤ 2 - 2*s := by linarith
      nlinarith [mul_nonneg ht (mul_nonneg ht ht), mul_nonneg (mul_nonneg ha ha) ha,
        mul_nonneg ha ha, mul_nonneg ht ht]
    · exact absurd (lt_of_le_of_lt hts h2) h1
    · push_neg at h1 h2
      have ha : (0:ℚ) ≤ 2 - 2*s := by linarith
      have hb : 2 - 2*s ≤ 2 - 2*t := by linarith
      nlinarith [mul_nonneg (sub_nonneg.mpr hb)
        (by nlinarith [sq_nonneg ((2-2*s) + (2-2*t))] :
          (0:ℚ) ≤ (2-2*s)*(2-2*s) + (2-2*s)*(2-2*t) + (2-2*t)*(2-2*t))]

/-- Witness for C4: the conditional-shape and interval clauses instantiated
at `t = 1/4` and the monotonicity clause at `1/4 ≤ 3/4`. -/
theorem easeInOutCubicShapeWitness :
    ((1/4 : ℚ) < 0.5 ∧ easeInOutCubic (1/4) = 4 * (1/4) * (1/4) * (1/4)) ∧
    (0 ≤ (1/4 : ℚ) ∧ (1/4 : ℚ) ≤ 3/4 ∧ (3/4 : ℚ) ≤ 1 ∧
     easeInOutCubic (1/4) ≤ easeInOutCubic (3/4)) := by
  refine ⟨⟨by norm_num, easeInOutCubicShape.2.2.2.1 (1/4) (by norm_num)⟩,
    by norm_num, by norm_num, by norm_num,
    easeInOutCubicShape.2.2.2.2.2.2 (1/4) (3/4) (by norm_num) (by norm_num) (by norm_num)⟩

/-!
## Theorems about the cloud particle system
-/

theorem shellMaxRadiusNonneg (layer : ℝ) : 0 ≤ shellMaxRadius layer := by
  rw [shellMaxRadius]; split_ifs <;> norm_num

theorem distFromOriginScale (p : Vec3) (k : ℝ) (hk : 0 ≤ k) :
    distFromOrigin ⟨p.x * k, p.y * k, p.z * k⟩ = k * distFromOrigin p := by
  rw [distFromOrigin, distFromOrigin,
    show p.x * k * (p.x * k) + p.y * k * (p.y * k) + p.z * k * (p.z * k)
      = k ^ 2 * (p.x * p.x + p.y * p.y + p.z * p.z) from by ring,
    Real.sqrt_mul (sq_nonneg k), Real.sqrt_sq hk]

/-- The containment clamp alone caps the distance from the origin at
`shellMaxRadius layer * contraction`, whatever position it receives. -/
theorem cloudContainStepBound (contraction layer : ℝ) (hc : 0 ≤ contraction) (p : Vec3) :
    distFromOrigin (cloudContainStep contraction layer p) ≤ shellMaxRadius layer * contraction := by
  have hM : 0 ≤ shellMaxRadius layer * contraction :=
    mul_nonneg (shellMaxRadiusNonneg layer) hc
  have hDd : distFromOrigin p = Real.sqrt (p.x * p.x + p.y * p.y + p.z * p.z) := rfl
  rw [cloudContainStep]
  split_ifs with h
  · have hDpos : 0 < Real.sqrt (p.x * p.x + p.y * p.y + p.z * p.z) := lt_of_le_of_lt hM h
    have hk : 0 ≤ shellMaxRadius layer * contraction /
        Real.sqrt (p.x * p.x + p.y * p.y + p.z * p.z) * 0.95 := by positivity
    rw [distFromOriginScale p _ hk, hDd]
    rw [show shellMaxRadius layer * contraction / Real.sqrt (p.x * p.x + p.y * p.y + p.z * p.z)
        * 0.95 * Real.sqrt (p.x * p.x + p.y * p.y + p.z * p.z)
      = 0.95 * (shellMaxRadius layer * contraction) from by field_simp; ring]
    nlinarith [hM]
  · rw [hDd]
    exact not_lt.mp h

/-- C6: after every cloud update tick, every particle's distance from the
system origin is at most its shell's configured maximum radius scaled by
the tick's contraction factor, for every pre-tick position — the soft
containment clamp is the final positional step of `cloudUpdate`. -/
theorem cloudContainmentInvariant :
    ∀ (flowSpeed contraction spiralStrength chaosAmount time delta : ℝ)
      (i : ℕ) (layer : ℝ) (j p : Vec3), 0 ≤ contraction →
      distFromOrigin
          (cloudUpdate flowSpeed contraction spiralStrength chaosAmount time delta i layer j p)
        ≤ shellMaxRadius layer * contraction := by
  intro flowSpeed contraction spiralStrength chaosAmount time delta i layer j p hc
  rw [cloudUpdate]
  exact cloudContainStepBound contraction layer hc _

/-- Witness for C6: the invariant instantiated at a concrete resting-state
tick on a core-shell particle at the origin. -/
theorem cloudContainmentInvariantWitness :
    (0:ℝ) ≤ 1 ∧
    distFromOrigin (cloudUpdate 0.3 1 0 0.02 0 (1/60) 0 0 ⟨0, 0, 0⟩ ⟨0, 0, 0⟩)
      ≤ shellMaxRadius 0 * 1 :=
  ⟨zero_le_one, cloudContainmentInvariant 0.3 1 0 0.02 0 (1/60) 0 0 ⟨0, 0, 0⟩ ⟨0, 0, 0⟩ zero_le_one⟩

theorem cloudFlowStepAxisFixed (fs ss d l y : ℝ) :
    cloudFlowStep fs ss d l ⟨0, y, 0⟩ = ⟨0, y, 0⟩ := by
  rw [cloudFlowStep]
  norm_num

theorem cloudOscStepTimeZeroIdxZero (fs : ℝ) (p : Vec3) : cloudOscStep fs 0 0 p = p := by
  rw [cloudOscStep]
  norm_num

theorem cloudCenterStepOnYAxis (fs d y : ℝ) (hy : 0 < y) :
    cloudCenterStep fs d ⟨0, y, 0⟩ = ⟨0, y - 0.01 * fs * d, 0⟩ := by
  rw [cloudCenterStep, vecNormalize]
  have hl : Real.sqrt ((-(0:ℝ)) * -0 + -y * -y + -0 * -0) = y := by
    rw [show ((-(0:ℝ)) * -0 + -y * -y + -0 * -0) = y ^ 2 from by ring, Real.sqrt_sq hy.le]
  simp only [hl]
  rw [if_neg hy.ne']
  field_simp
  ring

theorem cloudJitterStepZeroDraws (ca : ℝ) (p : Vec3) : cloudJitterStep ca ⟨0, 0, 0⟩ p = p := by
  rw [cloudJitterStep]
  norm_num

theorem cloudContainStepInsideYAxis (c l y : ℝ) (hy : 0 ≤ y)
    (hle : y ≤ shellMaxRadius l * c) : cloudContainStep c l ⟨0, y, 0⟩ = ⟨0, y, 0⟩ := by
  rw [cloudContainStep]
  have hd : Real.sqrt ((0:ℝ) * 0 + y * y + 0 * 0) = y := by
    rw [show ((0:ℝ) * 0 + y * y + 0 * 0) = y ^ 2 from by ring, Real.sqrt_sq hy]
  simp only [hd]
  rw [if_neg (not_lt.mpr hle)]

theorem distFromOriginYAxis (y : ℝ) (hy : 0 ≤ y) : distFromOrigin ⟨0, y, 0⟩ = y := by
  rw [distFromOrigin,
    show ((0:ℝ) * 0 + y * y + 0 * 0) = y ^ 2 from by ring, Real.sqrt_sq hy]

/-- Counterexample for C5: a resting-state tick (`flowSpeed = 0.3`,
`contraction = 1`, `spiralStrength = 0`, `chaosAmount = 0.02`, zero jitter
draws) with `dt = 1/60` on core-shell particle `0` starting at
`(0, 0.8, 0)` ends at `(0, 0.79995, 0)`: the post-update distance from the
origin is `0.79995`, which exceeds
`shellMaxRadius(Core) * contraction * 0.951 = 0.7608` — the position sits
inside the bound, so the clamp never fires and no `0.95`-margin applies. -/
theorem cloudContainmentMarginCounterexample :
    shellMaxRadius 0 * 1 * 0.951 <
      distFromOrigin (cloudUpdate 0.3 1 0 0.02 0 (1/60) 0 0 ⟨0, 0, 0⟩ ⟨0, 0.8, 0⟩) := by
  have hshell : shellMaxRadius 0 = 0.8 := by rw [shellMaxRadius]; norm_num
  rw [cloudUpdate, cloudFlowStepAxisFixed, cloudOscStepTimeZeroIdxZero,
    cloudCenterStepOnYAxis 0.3 (1/60) 0.8 (by norm_num), cloudJitterStepZeroDraws,
    cloudContainStepInsideYAxis 1 0 _ (by norm_num) (by rw [hshell]; norm_num),
    distFromOriginYAxis _ (by norm_num), hshell]
  norm_num

/-- C5 (amended): the post-update distance from the origin never exceeds
`shellMaxRadius(layer) * contraction` — with factor `1.0`, not `0.951`;
when the clamp fires the result lands at `0.95` of that bound, but an
unclamped particle may sit anywhere up to the full bound. -/
theorem cloudContainmentBoundAmended :
    ∀ (flowSpeed contraction spiralStrength chaosAmount time delta : ℝ)
      (i : ℕ) (layer : ℝ) (j p : Vec3), 0 ≤ contraction →
      distFromOrigin
          (cloudUpdate flowSpeed contraction spiralStrength chaosAmount time delta i layer j p)
        ≤ shellMaxRadius layer * contraction := by
  intro flowSpeed contraction spiralStrength chaosAmount time delta i layer j p hc
  rw [cloudUpdate]
  exact cloudContainStepBound contraction layer hc _

/-- Witness for the amended C5 bound: a thinking-state tick on a mid-shell
particle. -/
theorem cloudContainmentBoundAmendedWitness :
    (0:ℝ) ≤ 0.7 ∧
    distFromOrigin (cloudUpdate 0.8 0.7 0.3 0.05 2 (1/60) 5 1 ⟨0, 0, 0⟩ ⟨0, 1, 0⟩)
      ≤ shellMaxRadius 1 * 0.7 :=
  ⟨by norm_num,
   cloudContainmentBoundAmended 0.8 0.7 0.3 0.05 2 (1/60) 5 1 ⟨0, 0, 0⟩ ⟨0, 1, 0⟩ (by norm_num)⟩

theorem horizontalDistCosSin (a m y : ℝ) :
    horizontalDist ⟨Real.cos a * m, y, Real.sin a * m⟩ = |m| := by
  rw [horizontalDist,
    show Real.cos a * m * (Real.cos a * m) + Real.sin a * m * (Real.sin a * m)
      = m ^ 2 * (Real.sin a ^ 2 + Real.cos a ^ 2) from by ring,
    Real.sin_sq_add_cos_sq, mul_one, Real.sqrt_sq_eq_abs]

/-- Explicit form of the flow/spiral block when it is active
(`dist > 0.01`). -/
theorem cloudFlowStepActive (fs ss d l : ℝ) (p : Vec3) (h : horizontalDist p > 0.01) :
    cloudFlowStep fs ss d l p =
      ⟨Real.cos (atan2 p.z p.x + fs * (0.5 + l * 0.3) * d) *
         max 0.1 (horizontalDist p - ss * d * (l + 1) * 0.1),
       p.y,
       Real.sin (atan2 p.z p.x + fs * (0.5 + l * 0.3) * d) *
         max 0.1 (horizontalDist p - ss * d * (l + 1) * 0.1)⟩ := by
  have hd : Real.sqrt (p.x * p.x + p.z * p.z) = horizontalDist p := rfl
  rw [cloudFlowStep]
  simp only [hd]
  rw [if_pos h]

/-- Counterexample for C8: at the resting-state parameters
(`flowSpeed = 0.3`, `spiralStrength = 0`) with `dt = 1/60` and a core-shell
particle at horizontal radius `0.05`, the claimed inward pull is `0`, so the
claimed post-step radius is `0.05`, but the code's `Math.max(0.1, …)` floor
moves the particle out to radius `0.1`. -/
theorem cloudSpiralPullCounterexample :
    horizontalDist (cloudFlowStep 0.3 0 (1/60) 0 ⟨0.05, 0, 0⟩) ≠
      horizontalDist ⟨0.05, 0, 0⟩ - 0 * (1/60) * (0 + 1) * 0.1 := by
  have hhd : horizontalDist (⟨0.05, 0, 0⟩ : Vec3) = 0.05 := by
    rw [horizontalDist, show ((0.05:ℝ) * 0.05 + 0 * 0) = 0.05 ^ 2 from by norm_num,
      Real.sqrt_sq (by norm_num)]
  rw [cloudFlowStepActive 0.3 0 (1/60) 0 ⟨0.05, 0, 0⟩ (by rw [hhd]; norm_num),
    horizontalDistCosSin, hhd,
    abs_of_nonneg (le_trans (by norm_num)
      (le_max_left (0.1:ℝ) (0.05 - 0 * (1/60) * (0 + 1) * 0.1))),
    max_eq_left (by norm_num)]
  norm_num

/-- C8 (amended): the cloud flow/spiral block only runs for particles whose
horizontal radius exceeds `0.01` (others are left in place), and it moves an
active particle to horizontal radius
`max(0.1, dist - spiralStrength * dt * (layer+1) * 0.1)` — the inward pull
of `spiralStrength * dt * (layer+1) * 0.1` is floored at radius `0.1` — at
horizontal angle `atan2(z, x) + flowSpeed * (0.5 + layer * 0.3) * dt`,
leaving the vertical coordinate unchanged; the oscillation step then adds
`sin(time * 2 + i * 0.1) * 0.002 * flowSpeed` to the vertical coordinate
only; and these two steps precede the centering attraction, the jitter and
the containment clamp of the same tick. -/
theorem cloudFlowStepBehavior :
    ∀ (flowSpeed spiralStrength delta layer time : ℝ) (i : ℕ)
      (contraction chaosAmount : ℝ) (j p : Vec3),
      (¬ horizontalDist p > 0.01 →
        cloudFlowStep flowSpeed spiralStrength delta layer p = p) ∧
      (horizontalDist p > 0.01 →
        horizontalDist (cloudFlowStep flowSpeed spiralStrength delta layer p) =
          max 0.1 (horizontalDist p - spiralStrength * delta * (layer + 1) * 0.1) ∧
        cloudFlowStep flowSpeed spiralStrength delta layer p =
          ⟨Real.cos (atan2 p.z p.x + flowSpeed * (0.5 + layer * 0.3) * delta) *
             max 0.1 (horizontalDist p - spiralStrength * delta * (layer + 1) * 0.1),
           p.y,
           Real.sin (atan2 p.z p.x + flowSpeed * (0.5 + layer * 0.3) * delta) *
             max 0.1 (horizontalDist p - spiralStrength * delta * (layer + 1) * 0.1)⟩) ∧
      ((cloudOscStep flowSpeed time i p).y =
         p.y + Real.sin (time * 2 + (i : ℝ) * 0.1) * 0.002 * flowSpeed ∧
       (cloudOscStep flowSpeed time i p).x = p.x ∧
       (cloudOscStep flowSpeed time i p).z = p.z) ∧
      cloudUpdate flowSpeed contraction spiralStrength chaosAmount time delta i layer j p =
        cloudContainStep contraction layer
          (cloudJitterStep chaosAmount j
            (cloudCenterStep flowSpeed delta
              (cloudOscStep flowSpeed time i
                (cloudFlowStep flowSpeed spiralStrength delta layer p)))) := by
  intro flowSpeed spiralStrength delta layer time i contraction chaosAmount j p
  have hd : Real.sqrt (p.x * p.x + p.z * p.z) = horizontalDist p := rfl
  refine ⟨?_, ?_, ⟨rfl, rfl, rfl⟩, rfl⟩
  · intro h
    rw [cloudFlowStep]
    simp only [hd]
    rw [if_neg h]
  · intro h
    have hact := cloudFlowStepActive flowSpeed spiralStrength delta layer p h
    refine ⟨?_, hact⟩
    rw [hact, horizontalDistCosSin,
      abs_of_nonneg (le_trans (by norm_num) (le_max_left _ _))]

/-- Witness for the amended C8: a particle at horizontal radius `1` with
zero spiral pull keeps radius `max(0.1, 1) = 1`. -/
theorem cloudFlowStepBehaviorWitness :
    horizontalDist (⟨1, 0, 0⟩ : Vec3) > 0.01 ∧
    horizontalDist (cloudFlowStep 1 0 0 0 ⟨1, 0, 0⟩) =
      max 0.1 (horizontalDist ⟨1, 0, 0⟩ - 0 * 0 * (0 + 1) * 0.1) := by
  have h1 : horizontalDist (⟨1, 0, 0⟩ : Vec3) > 0.01 := by
    rw [horizontalDist]; norm_num
  exact ⟨h1, ((cloudFlowStepBehavior 1 0 0 0 0 0 0 0 ⟨0, 0, 0⟩ ⟨1, 0, 0⟩).2.1 h1).1⟩

/-!
## Theorems about the ring particle system
-/

/-- The three.js matrix path (`makeRotationFromQuaternion` then
`applyMatrix4`) coincides, identically, with `applyQuaternion`. -/
theorem applyMatrixEqApplyQuaternion (q : Quat) (v : Vec3) :
    applyMatrix4 (makeRotationFromQuaternion q) v = applyQuaternion v q := by
  rw [applyMatrix4, makeRotationFromQuaternion, applyQuaternion]
  simp only [Vec3.mk.injEq]
  refine ⟨by ring, by ring, by ring⟩

/-- Rotating about `axis` preserves the component along `axis` — a
polynomial identity, no hypotheses needed. -/
theorem dotAxisApplyQuaternion (axis : Vec3) (θ : ℝ) (v : Vec3) :
    dot axis (applyQuaternion v (setFromAxisAngle axis θ)) = dot axis v := by
  rw [applyQuaternion, setFromAxisAngle, dot, dot]
  simp only
  ring

/-- Applying a unit quaternion preserves the squared norm. -/
theorem dotSelfApplyQuaternion (q : Quat)
    (h : q.x * q.x + q.y * q.y + q.z * q.z + q.w * q.w = 1) (v : Vec3) :
    dot (applyQuaternion v q) (applyQuaternion v q) = dot v v := by
  rw [applyQuaternion, dot, dot]
  simp only
  linear_combination (4 * (q.x ^ 2 + q.y ^ 2 + q.z ^ 2) * (v.x ^ 2 + v.y ^ 2 + v.z ^ 2)
    - 4 * (q.x * v.x + q.y * v.y + q.z * v.z) ^ 2) * h

/-- `setFromAxisAngle` on a unit axis yields a unit quaternion. -/
theorem setFromAxisAngleUnit (axis : Vec3) (hu : dot axis axis = 1) (θ : ℝ) :
    (setFromAxisAngle axis θ).x * (setFromAxisAngle axis θ).x +
    (setFromAxisAngle axis θ).y * (setFromAxisAngle axis θ).y +
    (setFromAxisAngle axis θ).z * (setFromAxisAngle axis θ).z +
    (setFromAxisAngle axis θ).w * (setFromAxisAngle axis θ).w = 1 := by
  rw [setFromAxisAngle]
  simp only
  have hsc := Real.sin_sq_add_cos_sq (θ / 2)
  rw [dot] at hu
  nlinarith [hsc, hu]

/-- The incremental axis-angle rotation preserves the distance from the
rotation axis. -/
theorem distFromAxisApplyQuaternion (axis : Vec3) (hu : dot axis axis = 1) (θ : ℝ) (v : Vec3) :
    distFromAxis axis (applyQuaternion v (setFromAxisAngle axis θ)) = distFromAxis axis v := by
  rw [distFromAxis, distFromAxis, dotSelfApplyQuaternion _ (setFromAxisAngleUnit axis hu θ),
    dotAxisApplyQuaternion]

/-- `setFromUnitVectors` for the scenario's vectors: aligning the up vector
with the x-axis gives the quaternion `(0, 0, -1/√2, 1/√2)`. -/
theorem quatUpToXAxis : setFromUnitVectors ⟨0, 1, 0⟩ ⟨1, 0, 0⟩ =
    ⟨0, 0, -(Real.sqrt 2)⁻¹, (Real.sqrt 2)⁻¹⟩ := by
  rw [setFromUnitVectors]
  simp only [dot, cross, numberEpsilon]
  norm_num
  rw [quatNormalize]
  simp only
  rw [show ((0:ℝ) * 0 + 0 * 0 + -1 * -1 + 1 * 1) = 2 by norm_num]
  rw [if_neg (Real.sqrt_ne_zero'.mpr (by norm_num))]
  simp only [Quat.mk.injEq]
  refine ⟨by norm_num, by norm_num, by rw [neg_div, one_div], by rw [one_div]⟩

/-- Rotating by the quaternion `(0, 0, -1/√2, 1/√2)` maps `(x, y, z)` to
`(y, -x, z)`. -/
theorem applyQuatUpToXAxis (v : Vec3) :
    applyQuaternion v ⟨0, 0, -(Real.sqrt 2)⁻¹, (Real.sqrt 2)⁻¹⟩ = ⟨v.y, -v.x, v.z⟩ := by
  have hc2 : (Real.sqrt 2)⁻¹ * (Real.sqrt 2)⁻¹ = 1 / 2 := by
    rw [← mul_inv]
    rw [show Real.sqrt 2 * Real.sqrt 2 = 2 from Real.mul_self_sqrt (by norm_num)]
    norm_num
  rw [applyQuaternion]
  simp only [Vec3.mk.injEq]
  refine ⟨?_, ?_, ?_⟩
  · linear_combination (2 * v.y - 2 * v.x) * hc2
  · linear_combination (-2 * v.x - 2 * v.y) * hc2
  · ring

theorem distXAxisYZ (u w : ℝ) : distFromAxis ⟨1, 0, 0⟩ ⟨0, u, w⟩ = Real.sqrt (u ^ 2 + w ^ 2) := by
  rw [distFromAxis, dot, dot]
  norm_num [sq]

theorem sqrtFourCosSin (θ : ℝ) :
    Real.sqrt ((-(Real.cos θ * 2)) ^ 2 + (Real.sin θ * 2) ^ 2) = 2 := by
  rw [show (-(Real.cos θ * 2)) ^ 2 + (Real.sin θ * 2) ^ 2 = 2 ^ 2 from by
    linear_combination 4 * Real.sin_sq_add_cos_sq θ]
  exact Real.sqrt_sq (by norm_num)

theorem ringBaseDistXAxis : ∀ i : ℕ,
    distFromAxis ⟨1, 0, 0⟩ (ringBasePosition ⟨1, 0, 0⟩ 2 i) = 2 := by
  intro i
  rw [ringBasePosition]
  rw [quatUpToXAxis, applyMatrixEqApplyQuaternion, applyQuatUpToXAxis]
  rw [show (⟨(⟨Real.cos (((i:ℝ) / (PARTICLES_PER_RING:ℝ)) * Real.pi * 2) * 2, 0,
        Real.sin (((i:ℝ) / (PARTICLES_PER_RING:ℝ)) * Real.pi * 2) * 2⟩ : Vec3).y,
      -(⟨Real.cos (((i:ℝ) / (PARTICLES_PER_RING:ℝ)) * Real.pi * 2) * 2, 0,
        Real.sin (((i:ℝ) / (PARTICLES_PER_RING:ℝ)) * Real.pi * 2) * 2⟩ : Vec3).x,
      (⟨Real.cos (((i:ℝ) / (PARTICLES_PER_RING:ℝ)) * Real.pi * 2) * 2, 0,
        Real.sin (((i:ℝ) / (PARTICLES_PER_RING:ℝ)) * Real.pi * 2) * 2⟩ : Vec3).z⟩ : Vec3) =
    ⟨0, -(Real.cos (((i:ℝ) / (PARTICLES_PER_RING:ℝ)) * Real.pi * 2) * 2),
      Real.sin (((i:ℝ) / (PARTICLES_PER_RING:ℝ)) * Real.pi * 2) * 2⟩ from rfl]
  rw [distXAxisYZ, sqrtFourCosSin]

/-- C7: at construction every sampled ring particle of the scenario ring
(axis `(1,0,0)`, radius `2.0`) lies at distance exactly `2.0` from the
rotation axis; each per-tick update applies one incremental rotation
quaternion about the ring's fixed unit axis to every stored position, which
leaves every particle's distance from that axis unchanged (exactly, in the
real-number model) — so distance-from-axis-equals-radius is preserved by
every tick. -/
theorem ringDistanceInvariants :
    (∀ i : ℕ, distFromAxis ⟨1, 0, 0⟩ (ringBasePosition ⟨1, 0, 0⟩ 2 i) = 2) ∧
    (∀ axis : Vec3, dot axis axis = 1 →
      ∀ (delta speed speedMultiplier : ℝ) (p : Vec3),
        distFromAxis axis (ringTickRotate axis delta speed speedMultiplier p) =
          distFromAxis axis p) ∧
    (∀ axis : Vec3, dot axis axis = 1 →
      ∀ (delta speed speedMultiplier : ℝ) (ps : List Vec3),
        (ringUpdate axis delta speed speedMultiplier ps).map (distFromAxis axis) =
          ps.map (distFromAxis axis)) := by
  refine ⟨ringBaseDistXAxis, ?_, ?_⟩
  · intro axis hu delta speed speedMultiplier p
    rw [ringTickRotate, distFromAxisApplyQuaternion axis hu]
  · intro axis hu delta speed speedMultiplier ps
    rw [ringUpdate, List.map_map]
    congr 1
    funext p
    exact distFromAxisApplyQuaternion axis hu _ p

/-- Witness for C7: the x-axis is a unit axis, and one tick of rotation
about it (at `dt = 1/60`, base speed `1.0`, resting speed multiplier `0.3`)
preserves the distance of a sample point from the axis; the construction
clause is read off at particle `0`. -/
theorem ringDistanceInvariantsWitness :
    dot ⟨1, 0, 0⟩ ⟨1, 0, 0⟩ = 1 ∧
    distFromAxis ⟨1, 0, 0⟩ (ringBasePosition ⟨1, 0, 0⟩ 2 0) = 2 ∧
    distFromAxis ⟨1, 0, 0⟩ (ringTickRotate ⟨1, 0, 0⟩ (1/60) 1 0.3 ⟨0, 1, 2⟩) =
      distFromAxis ⟨1, 0, 0⟩ ⟨0, 1, 2⟩ := by
  have hu : dot (⟨1, 0, 0⟩ : Vec3) ⟨1, 0, 0⟩ = 1 := by rw [dot]; norm_num
  exact ⟨hu, ringDistanceInvariants.1 0,
    ringDistanceInvariants.2.1 ⟨1, 0, 0⟩ hu (1/60) 1 0.3 ⟨0, 1, 2⟩⟩
